import Mathlib

/-!
Verification of the closed-loop acquisition/analysis coordination script
(`scripts/imageAnalysis.py`).  The script coordinates a microscope
acquisition controller (MicroManager) and an online analysis engine
(CaImAn) over two named FIFOs.  We embed the script's pure data
manipulation and its linear control flow (as an event-trace function of
the messages delivered on the read pipe) and prove the protocol
properties stated in the specification.
-/

/-! ## String primitives

Python `s[:-1]` drops the final character of a string (and maps the empty
string to itself).  `readline` on a pipe returns everything up to and
including the first newline, or the whole remaining content at end of
file. -/

/-- Model of the Python slice `s[:-1]`: drop the last character; the
empty string maps to itself. -/
def sliceDropLast (s : String) : String := ⟨s.data.dropLast⟩

/-- Characters `readline` consumes from a pending byte sequence: up to
and including the first newline, or everything when no newline occurs
before end of file. -/
def readlineChars : List Char → List Char
  | [] => []
  | c :: cs => if c = '\n' then [c] else c :: readlineChars cs

/-- Model of `file.readline()` applied to the bytes the writer wrote
before closing its end. -/
def readlineFrom (written : String) : String := ⟨readlineChars written.data⟩

/-- The message payload the script extracts from one pipe exchange:
`readline()[:-1]` applied to what the writer wrote
(`imageAnalysis.py` lines 56, 154, 194). -/
def awaitMessage (written : String) : String := sliceDropLast (readlineFrom written)

/-! ## POSIX path join (`os.path.join`), as used at line 59 -/

/-- Whether `pat` occurs at the head of `l`. -/
def listLeads : List Char → List Char → Bool
  | [], _ => true
  | _ :: _, [] => false
  | a :: pat, b :: l => if a = b then listLeads pat l else false

/-- `s.startswith(pat)` on strings. -/
def strBegins (s pat : String) : Bool := listLeads pat.data s.data

/-- `s.endswith(pat)` on strings. -/
def strFinal (s pat : String) : Bool := listLeads pat.data.reverse s.data.reverse

/-- Two-argument POSIX `os.path.join`: a later absolute component
resets the result; otherwise a single separator is inserted unless one
is already present. -/
def ospJoin (a b : String) : String :=
  if strBegins b "/" then b
  else if a = "" ∨ strFinal a "/" then a ++ b
  else a ++ "/" ++ b

/-! ## Fixed script constants (lines 29-32, 96, 100-101, 156, 185, 195) -/

def sendPipeName : String := "/tmp/getPipeMMCaImAn.ser"

def receivePipeName : String := "/tmp/sendPipeMMCaImAn.ser"

def MMfileDirectory : String := "/Applications/MicroManager 2.0 gamma/uMresults"

def expectedMessage_init : String := "startInitProcess"

def expectedMessage_analyse : String := "startStreamAnalysis"

/-- The one message the script writes, newline included (line 185). -/
def triggerStream : String := "startStreamAcquisition\n"

/-- `cnnFlag = True` (line 100): whether the online CNN classifier is
used for screening candidate components. -/
def cnnFlag : Bool := true

/-- The buffering argument of `open(sendPipeName, 'w', 1)` (line 186):
`1` selects line buffering. -/
def sendPipeOpenBuffering : Nat := 1

/-! ## Derived file path (lines 58-59) -/

/-- `fullFileName = getFileName + '_MMStack_Default.ome.tif'` (line 58). -/
def fullFileName (getFileName : String) : String :=
  getFileName ++ "_MMStack_Default.ome.tif"

/-- `fileToProcess = os.path.join(CaimanFileDirectory, 'example_movies',
getFileName, fullFileName)` (line 59); the four-argument join is the
left fold of the binary join. -/
def fileToProcess (caimanFileDirectory getFileName : String) : String :=
  ospJoin (ospJoin (ospJoin caimanFileDirectory "example_movies") getFileName)
    (fullFileName getFileName)

/-- The specification's formula for the derived path:
`join(resultsDirectory, sessionIdentifier,
sessionIdentifier + "_MMStack_Default.ome.tif")`. -/
def derivedPathSpec (resultsDirectory sessionIdentifier : String) : String :=
  ospJoin (ospJoin resultsDirectory sessionIdentifier)
    (sessionIdentifier ++ "_MMStack_Default.ome.tif")

/-! ## Channel setup (lines 36-50)

The filesystem state at one pipe path, and the effect of the setup code
`if os.path.exists(p): os.remove(p); os.mkfifo(p) else: os.mkfifo(p)`.
Removable entries only (a non-removable entry raises, which the spec
classifies as `ChannelCreationError` and is out of this model). -/

/-- Filesystem state at a fixed path: nothing there, a FIFO, or some
other (removable) entry. -/
inductive FSEntry
  | absent
  | fifo
  | otherEntry
  deriving DecidableEq, Repr

/-- `os.path.exists`. -/
def pyExists : FSEntry → Bool
  | .absent => false
  | _ => true

/-- `os.remove` on a removable entry leaves the path absent. -/
def pyRemove (_ : FSEntry) : FSEntry := .absent

/-- `os.mkfifo` creates a fresh FIFO at the path. -/
def pyMkfifo (_ : FSEntry) : FSEntry := .fifo

/-- The setup block run for each pipe path (lines 36-42 and 44-50). -/
def ensureChannel (e : FSEntry) : FSEntry :=
  if pyExists e then pyMkfifo (pyRemove e) else pyMkfifo e

/-- The pair of pipe paths the script manages. -/
structure PipeFS where
  send : FSEntry
  receive : FSEntry
  deriving DecidableEq, Repr

/-- The whole pipe-creation phase: both paths are ensured. -/
def pipeSetup (fs : PipeFS) : PipeFS :=
  { send := ensureChannel fs.send, receive := ensureChannel fs.receive }

/-! ## Parameter dictionary (lines 67-146) -/

/-- An exact decimal number `mantissa / 10 ^ shift`, representing the
numeric literals of the script (e.g. `0.45` as `⟨45, 2⟩`, `40` as
`⟨40, 0⟩`) without rounding. -/
structure Decimal where
  mantissa : Int
  shift : Nat
  deriving DecidableEq, Repr

/-- The rational value a `Decimal` denotes. -/
def Decimal.toRat (d : Decimal) : ℚ := (d.mantissa : ℚ) / (10 : ℚ) ^ d.shift

/-- Strict positivity of a `Decimal` (the denominator is positive, so
this is positivity of the mantissa). -/
def Decimal.isPos (d : Decimal) : Bool := 0 < d.mantissa

/-- Values appearing in the parameter dictionary: strings, numbers
(exact decimals), booleans, `None`, and integer pairs. -/
inductive PyVal
  | str (s : String)
  | num (d : Decimal)
  | boolean (b : Bool)
  | none
  | pair (a b : Int)
  deriving DecidableEq, Repr

/-- All entries of `initialParamsDict` except `fnames` (which depends
on the received session identifier), in source order (lines 104-143). -/
def restParams : List (String × PyVal) :=
  [ ("fr", .num ⟨40, 0⟩),
    ("decay_time", .num ⟨45, 2⟩),
    ("noise_method", .str "mean"),
    ("p", .num ⟨1, 0⟩),
    ("K", .num ⟨1, 0⟩),
    ("rf", .none),
    ("center_psf", .boolean true),
    ("ssub", .num ⟨3, 0⟩),
    ("tsub", .num ⟨1, 0⟩),
    ("nb", .num ⟨0, 0⟩),
    ("min_corr", .num ⟨85, 2⟩),
    ("min_pnr", .num ⟨20, 0⟩),
    ("ring_size_factor", .num ⟨15, 1⟩),
    ("ssub_B", .num ⟨5, 0⟩),
    ("normalize_init", .boolean false),
    ("update_background_components", .boolean false),
    ("method_deconvolution", .str "oasis"),
    ("SNR_lowest", .num ⟨5, 1⟩),
    ("rval_thr", .num ⟨9, 1⟩),
    ("gSig", .pair 120 120),
    ("gSiz", .pair 30 30),
    ("ds_factor", .num ⟨3, 0⟩),
    ("epochs", .num ⟨1, 0⟩),
    ("expected_comps", .num ⟨1, 0⟩),
    ("init_batch", .num ⟨300, 0⟩),
    ("init_method", .str "bare"),
    ("min_SNR", .num ⟨1, 0⟩),
    ("motion_correct", .boolean false),
    ("normalize", .boolean true),
    ("save_online_movie", .boolean false),
    ("show_movie", .boolean true),
    ("update_num_comps", .boolean false),
    ("sniper_mode", .boolean cnnFlag),
    ("thresh_CNN_noisy", .num ⟨5, 1⟩) ]

/-- `initialParamsDict` (lines 104-143), parameterized by the file path
stored under `fnames`. -/
def initialParamsDict (fileToProcessVal : String) : List (String × PyVal) :=
  ("fnames", .str fileToProcessVal) :: restParams

/-! ## Session-configuration validation -/

/-- Modelled from the spec: the `ConfigurationError` failure of
`configure`.  The validation itself lives inside the external engine's
`params.CNMFParams` constructor (line 146 passes the dictionary to it),
which is not part of this repository's sources. -/
inductive ConfigurationError
  | missingParam (name : String)
  | outOfRange (name : String)
  deriving DecidableEq, Repr

/-- Whether an optional dictionary value is a strictly positive number. -/
def isPositiveNum : Option PyVal → Bool
  | some (.num d) => d.isPos
  | _ => false

/-- Modelled from the spec: `configure(options)` "validates that
required parameters (file reference, frame rate, decay time, expected
neuron bound) are present, and builds the immutable Session
Configuration; fails with `ConfigurationError` on missing/out-of-range
values (e.g., non-positive frame rate)".  The engine-side validator is
not in this repository's sources, so it is taken from the spec's
contract. -/
def configure (options : List (String × PyVal)) :
    Except ConfigurationError (List (String × PyVal)) :=
  if (options.lookup "fnames").isNone then .error (.missingParam "fnames")
  else if (options.lookup "fr").isNone then .error (.missingParam "fr")
  else if !(isPositiveNum (options.lookup "fr")) then .error (.outOfRange "fr")
  else if (options.lookup "decay_time").isNone then .error (.missingParam "decay_time")
  else if !(isPositiveNum (options.lookup "decay_time")) then
    .error (.outOfRange "decay_time")
  else if (options.lookup "K").isNone then .error (.missingParam "K")
  else .ok options

/-- The parameter dictionary with the frame-rate entry omitted. -/
def paramsFrOmitted (fileToProcessVal : String) : List (String × PyVal) :=
  (initialParamsDict fileToProcessVal).filter (fun p => !(p.1 == "fr"))

/-- The parameter dictionary with the frame rate replaced by `-5`. -/
def paramsFrNeg (fileToProcessVal : String) : List (String × PyVal) :=
  (initialParamsDict fileToProcessVal).map
    (fun p => if p.1 == "fr" then (p.1, PyVal.num ⟨-5, 0⟩) else p)

/-! ## Event trace of the script's linear control flow (lines 53-200)

The script is a straight line with two data-dependent branches (the two
trigger comparisons) and two external blocking points besides the pipe
reads: the user pressing Enter at the review pause (line 183) and the
`cnnFlag` branch (line 177).  We model the run as a function from the
raw lines delivered by the three successive pipe reads (plus the
`cnnFlag` value and whether the review pause is ever confirmed) to the
list of observable events, in order.  An exhausted input list, or an
unconfirmed review pause, means the script is blocked at that point and
the trace simply ends there. -/

/-- Observable events of one run of the script, in program order. -/
inductive Event
  | recvdFileName (payload : String)
  | builtConfig
  | constructedEngine
  | readInitTrigger (payload : String)
  | initializeOnline
  | warned
  | exited
  | cnnOverride (group key : String)
  | reviewConfirmed
  | sentMessage (raw : String)
  | readStreamTrigger (payload : String)
  | fitOnline
  deriving DecidableEq, Repr

/-- Events up to engine construction (lines 55-147): the filename is
read and stripped, the parameter dictionary is built, the engine
object is constructed. -/
def initSegment (f : String) : List Event :=
  [.recvdFileName (sliceDropLast f), .builtConfig, .constructedEngine]

/-- Events of the stream-trigger phase (lines 193-200): the trigger is
read; `fit_online` runs exactly when it equals the expected token, and
otherwise the script simply ends. -/
def streamSegment : List String → List Event
  | [] => []
  | u :: _ =>
    .readStreamTrigger (sliceDropLast u) ::
      (if sliceDropLast u = expectedMessage_analyse then [.fitOnline] else [])

/-- Events after a successful init trigger (lines 161-200):
initialization, the classifier override when `cnnFlag` is set
(lines 177-179), the review pause (line 183), the ready message
(lines 185-187), then the stream-trigger phase. -/
def afterInit (cnn reviewDone : Bool) (rest2 : List String) : List Event :=
  .initializeOnline ::
    ((if cnn then [.cnnOverride "quality" "min_cnn_thr"] else []) ++
      (if reviewDone then
        .reviewConfirmed :: .sentMessage triggerStream :: streamSegment rest2
      else []))

/-- Events of the init-trigger phase (lines 153-164): the trigger is
read; on a match the run continues, on a mismatch the script prints a
warning and calls `exit()`. -/
def triggerSegment (cnn reviewDone : Bool) (l : String) (rest2 : List String) :
    List Event :=
  .readInitTrigger (sliceDropLast l) ::
    (if sliceDropLast l = expectedMessage_init then afterInit cnn reviewDone rest2
     else [.warned, .exited])

/-- The full event trace of one run, as a function of the raw lines
delivered on the successive opens of the read pipe. -/
def analyzerTrace (cnn reviewDone : Bool) : List String → List Event
  | [] => []
  | [f] => initSegment f
  | f :: l :: rest2 => initSegment f ++ triggerSegment cnn reviewDone l rest2

/-- Recognizer for filename-reception events. -/
def isRecvFileName : Event → Bool
  | .recvdFileName _ => true
  | _ => false

/-- Recognizer for init-trigger-reception events. -/
def isReadInitTrigger : Event → Bool
  | .readInitTrigger _ => true
  | _ => false

/-- Recognizer for the engine-initialization event. -/
def isInitializeOnline : Event → Bool
  | .initializeOnline => true
  | _ => false

/-- Recognizer for pipe-write events. -/
def isSentMessage : Event → Bool
  | .sentMessage _ => true
  | _ => false

/-- Recognizer for the write of the ready token specifically. -/
def isSentReady : Event → Bool
  | .sentMessage raw => raw == triggerStream
  | _ => false

/-- Recognizer for stream-trigger-reception events. -/
def isReadStreamTrigger : Event → Bool
  | .readStreamTrigger _ => true
  | _ => false

/-- Recognizer for the streaming-run event. -/
def isFitOnline : Event → Bool
  | .fitOnline => true
  | _ => false

/-- Recognizer for the classifier-threshold-override event. -/
def isCnnOverride : Event → Bool
  | .cnnOverride _ _ => true
  | _ => false

/-- Recognizer for the review-pause-confirmation event. -/
def isReviewConfirmed : Event → Bool
  | .reviewConfirmed => true
  | _ => false

/-! ## Ordering of events within a trace -/

/-- `precedes p q t`: every occurrence of a `q`-event in `t` is
strictly preceded by some `p`-event. -/
def precedes (p q : Event → Bool) (t : List Event) : Prop :=
  ∀ l1 e l2, t = l1 ++ e :: l2 → q e = true → ∃ e2, e2 ∈ l1 ∧ p e2 = true

theorem precedes_nil (p q : Event → Bool) : precedes p q [] := by
  intro l1 e l2 h _
  cases l1 <;> simp_all

theorem precedes_cons_not (p q : Event → Bool) (a : Event) (t : List Event)
    (hq : q a = false) (ht : precedes p q t) : precedes p q (a :: t) := by
  intro l1 e l2 h hqe
  cases l1 with
  | nil =>
    simp only [List.nil_append, List.cons.injEq] at h
    rw [← h.1, hq] at hqe
    cases hqe
  | cons b l1x =>
    simp only [List.cons_append, List.cons.injEq] at h
    obtain ⟨e2, he2, hp⟩ := ht l1x e l2 h.2 hqe
    exact ⟨e2, List.mem_cons_of_mem _ he2, hp⟩

theorem precedes_cons_hit (p q : Event → Bool) (a : Event) (t : List Event)
    (hp : p a = true) (hq : q a = false) : precedes p q (a :: t) := by
  intro l1 e l2 h hqe
  cases l1 with
  | nil =>
    simp only [List.nil_append, List.cons.injEq] at h
    rw [← h.1, hq] at hqe
    cases hqe
  | cons b l1x =>
    simp only [List.cons_append, List.cons.injEq] at h
    exact ⟨a, by rw [h.1]; exact List.mem_cons_self b l1x, hp⟩

/-! ## Helper lemmas about `readline` -/

theorem readlineChars_of_no_nl (l : List Char) (h : '\n' ∉ l) :
    readlineChars l = l := by
  induction l with
  | nil => rfl
  | cons c cs ih =>
    rw [List.mem_cons] at h
    push_neg at h
    rw [readlineChars, if_neg (fun hc => h.1 hc.symm), ih h.2]

theorem readlineChars_concat_nl (l : List Char) (h : '\n' ∉ l) :
    readlineChars (l ++ ['\n']) = l ++ ['\n'] := by
  induction l with
  | nil => rfl
  | cons c cs ih =>
    rw [List.mem_cons] at h
    push_neg at h
    rw [List.cons_append, readlineChars, if_neg (fun hc => h.1 hc.symm), ih h.2]

/-! ## Claim theorems -/

/-- Claim C1: for every received session identifier, the derived file
path passed to the engine under `fnames` equals
`join(resultsDirectory, s, s ++ "_MMStack_Default.ome.tif")`, where the
results directory is `join(CaimanFileDirectory, "example_movies")`; in
particular with results directory `/data/results` and identifier
`run42` the derived path is
`/data/results/run42/run42_MMStack_Default.ome.tif`. -/
theorem C1_path_derivation (caimanDir s : String) :
    fileToProcess caimanDir s = derivedPathSpec (ospJoin caimanDir "example_movies") s
  ∧ (initialParamsDict (fileToProcess caimanDir s)).lookup "fnames"
      = some (.str (derivedPathSpec (ospJoin caimanDir "example_movies") s))
  ∧ derivedPathSpec "/data/results" "run42"
      = "/data/results/run42/run42_MMStack_Default.ome.tif" :=
  ⟨rfl, rfl, by decide⟩

/-- Claim C5: for each of the two channel paths and any prior
(removable) filesystem state, channel setup leaves exactly one fresh
FIFO at the path; an existing entry is first removed and a FIFO created
in its place, an absent entry leads to direct FIFO creation. -/
theorem C5_channel_setup (fs : PipeFS) :
    (pipeSetup fs).send = FSEntry.fifo
  ∧ (pipeSetup fs).receive = FSEntry.fifo
  ∧ ensureChannel .absent = pyMkfifo .absent
  ∧ ensureChannel .fifo = pyMkfifo (pyRemove .fifo)
  ∧ ensureChannel .otherEntry = pyMkfifo (pyRemove .otherEntry) := by
  obtain ⟨s, r⟩ := fs
  cases s <;> cases r <;> exact ⟨rfl, rfl, rfl, rfl, rfl⟩

/-- Claim C6, counterexample: a writer that sends `"abc"` without a
trailing newline and closes gets payload `"ab"`, not `"abc"` — the
slice `[:-1]` drops the last character unconditionally, so the payload
does not equal the written content. -/
theorem C6_awaitMessage_counterex :
    awaitMessage "abc" = "ab" ∧ ("ab" : String) ≠ "abc" := by decide

/-- Claim C6, amended: for a line with no embedded newline, the payload
equals the written content exactly when the writer terminated it with a
newline; an unterminated write additionally loses its final character
(the slice `[:-1]` drops the last character unconditionally). -/
theorem C6_awaitMessage_amended (content : String) (h : '\n' ∉ content.data) :
    awaitMessage (content ++ "\n") = content
  ∧ awaitMessage content = sliceDropLast content := by
  constructor
  · show sliceDropLast ⟨readlineChars (content ++ "\n").data⟩ = content
    rw [String.data_append]
    show sliceDropLast ⟨readlineChars (content.data ++ ['\n'])⟩ = content
    rw [readlineChars_concat_nl content.data h]
    show String.mk ((content.data ++ ['\n']).dropLast) = content
    rw [List.dropLast_concat]
  · show sliceDropLast ⟨readlineChars content.data⟩ = sliceDropLast content
    rw [readlineChars_of_no_nl content.data h]

/-- Witness for the amended claim C6 at the content `"run42"`. -/
theorem C6_awaitMessage_amended_w :
    '\n' ∉ "run42".data
  ∧ (awaitMessage ("run42" ++ "\n") = "run42"
    ∧ awaitMessage "run42" = sliceDropLast "run42") :=
  ⟨by decide, C6_awaitMessage_amended "run42" (by decide)⟩

/-- Claim C8: building the session configuration fails with a
`ConfigurationError` when the frame rate is omitted or set to `-5`, and
succeeds on the script's actual dictionary, whose configuration
contains `fr = 40`.  (The validator is modelled from the spec; the
dictionary is the source's.) -/
theorem C8_configure_validation (f : String) :
    configure (paramsFrOmitted f) = .error (.missingParam "fr")
  ∧ configure (paramsFrNeg f) = .error (.outOfRange "fr")
  ∧ configure (initialParamsDict f) = .ok (initialParamsDict f)
  ∧ (initialParamsDict f).lookup "fr" = some (.num ⟨40, 0⟩) :=
  ⟨rfl, rfl, rfl, rfl⟩

/-- Claim C10: a writer that closes without writing (end of file) makes
`readline` return the empty string, whose payload is again the empty
string; the empty string matches no expected token, so at the
init-trigger phase the run warns and exits without initialization, and
at the stream-trigger phase streaming is never entered. -/
theorem C10_eof_empty (cnn reviewDone : Bool) (f : String) :
    awaitMessage "" = ""
  ∧ "" ≠ expectedMessage_init
  ∧ "" ≠ expectedMessage_analyse
  ∧ analyzerTrace cnn reviewDone [f, ""]
      = initSegment f ++ [Event.readInitTrigger "", Event.warned, Event.exited]
  ∧ Event.initializeOnline ∉ analyzerTrace cnn reviewDone [f, ""]
  ∧ Event.fitOnline ∉ analyzerTrace cnn true [f, "startInitProcess\n", ""] := by
  refine ⟨by decide, by decide, by decide, rfl, ?_, ?_⟩
  · simp +decide [analyzerTrace, initSegment, triggerSegment, expectedMessage_init,
      sliceDropLast]
  · cases cnn <;>
      simp +decide [analyzerTrace, initSegment, triggerSegment, afterInit, streamSegment,
        expectedMessage_init, expectedMessage_analyse, sliceDropLast]

/-- Claim C2: at the init-trigger phase the received payload is
compared verbatim to `startInitProcess`; a match invokes
`initialize_online`, and any other payload (including case-mismatched
variants) makes the script warn and exit without invoking
initialization. -/
theorem C2_init_gating (cnn reviewDone : Bool) (f l : String) (rest : List String) :
    (sliceDropLast l = expectedMessage_init →
      Event.initializeOnline ∈ analyzerTrace cnn reviewDone (f :: l :: rest))
  ∧ (sliceDropLast l ≠ expectedMessage_init →
      analyzerTrace cnn reviewDone (f :: l :: rest)
        = initSegment f ++
            [Event.readInitTrigger (sliceDropLast l), Event.warned, Event.exited]
      ∧ Event.initializeOnline ∉ analyzerTrace cnn reviewDone (f :: l :: rest)) := by
  constructor
  · intro h
    simp [analyzerTrace, initSegment, triggerSegment, afterInit, h]
  · intro h
    refine ⟨by simp [analyzerTrace, triggerSegment, h], ?_⟩
    simp [analyzerTrace, initSegment, triggerSegment, h]

/-- Witness for claim C2 at the case-mismatched trigger
`"startinitprocess"`. -/
theorem C2_init_gating_w :
    sliceDropLast "startinitprocess\n" ≠ expectedMessage_init
  ∧ (analyzerTrace true true ["run42\n", "startinitprocess\n"]
      = initSegment "run42\n" ++
          [Event.readInitTrigger (sliceDropLast "startinitprocess\n"),
           Event.warned, Event.exited]
    ∧ Event.initializeOnline ∉ analyzerTrace true true ["run42\n", "startinitprocess\n"]) :=
  ⟨by decide, (C2_init_gating true true "run42\n" "startinitprocess\n" []).2 (by decide)⟩

/-- Claim C3, counterexample: when the stream-trigger payload is
`"wrongToken"`, the run ends without invoking `fit_online`, but no
warning is reported and no explicit exit happens — the trace ends right
after reading the mismatched trigger, with neither a `warned` nor an
`exited` event (the `if` at line 198 has no `else` branch). -/
theorem C3_stream_mismatch_counterex :
    analyzerTrace cnnFlag true ["run42\n", "startInitProcess\n", "wrongToken\n"]
      = [Event.recvdFileName "run42", Event.builtConfig, Event.constructedEngine,
         Event.readInitTrigger "startInitProcess", Event.initializeOnline,
         Event.cnnOverride "quality" "min_cnn_thr", Event.reviewConfirmed,
         Event.sentMessage "startStreamAcquisition\n",
         Event.readStreamTrigger "wrongToken"]
  ∧ Event.warned ∉
      analyzerTrace cnnFlag true ["run42\n", "startInitProcess\n", "wrongToken\n"]
  ∧ Event.exited ∉
      analyzerTrace cnnFlag true ["run42\n", "startInitProcess\n", "wrongToken\n"]
  ∧ Event.fitOnline ∉
      analyzerTrace cnnFlag true ["run42\n", "startInitProcess\n", "wrongToken\n"] := by
  decide

/-- Claim C3, amended: at the stream-trigger phase, a payload other
than `startStreamAnalysis` leaves `fit_online` uninvoked and the script
simply reaches its end (the process terminates), but no warning is
reported and no explicit exit call is made. -/
theorem C3_stream_mismatch_amended (f l u : String) (rest : List String)
    (hl : sliceDropLast l = expectedMessage_init)
    (hu : sliceDropLast u ≠ expectedMessage_analyse) :
    analyzerTrace cnnFlag true (f :: l :: u :: rest)
      = initSegment f ++
          [Event.readInitTrigger (sliceDropLast l), Event.initializeOnline,
           Event.cnnOverride "quality" "min_cnn_thr", Event.reviewConfirmed,
           Event.sentMessage triggerStream, Event.readStreamTrigger (sliceDropLast u)]
  ∧ Event.warned ∉ analyzerTrace cnnFlag true (f :: l :: u :: rest)
  ∧ Event.exited ∉ analyzerTrace cnnFlag true (f :: l :: u :: rest)
  ∧ Event.fitOnline ∉ analyzerTrace cnnFlag true (f :: l :: u :: rest) := by
  refine ⟨?_, ?_, ?_, ?_⟩ <;>
    simp [analyzerTrace, initSegment, triggerSegment, afterInit, streamSegment,
      cnnFlag, hl, hu]

/-- Witness for the amended claim C3 at the concrete mismatched stream
trigger `"wrongToken"`. -/
theorem C3_stream_mismatch_amended_w :
    sliceDropLast "startInitProcess\n" = expectedMessage_init
  ∧ sliceDropLast "wrongToken\n" ≠ expectedMessage_analyse
  ∧ (analyzerTrace cnnFlag true ["run42\n", "startInitProcess\n", "wrongToken\n"]
      = initSegment "run42\n" ++
          [Event.readInitTrigger (sliceDropLast "startInitProcess\n"),
           Event.initializeOnline, Event.cnnOverride "quality" "min_cnn_thr",
           Event.reviewConfirmed, Event.sentMessage triggerStream,
           Event.readStreamTrigger (sliceDropLast "wrongToken\n")]
    ∧ Event.warned ∉
        analyzerTrace cnnFlag true ["run42\n", "startInitProcess\n", "wrongToken\n"]
    ∧ Event.exited ∉
        analyzerTrace cnnFlag true ["run42\n", "startInitProcess\n", "wrongToken\n"]
    ∧ Event.fitOnline ∉
        analyzerTrace cnnFlag true ["run42\n", "startInitProcess\n", "wrongToken\n"]) :=
  ⟨by decide, by decide,
    C3_stream_mismatch_amended "run42\n" "startInitProcess\n" "wrongToken\n" []
      (by decide) (by decide)⟩

/-- Claim C4: in every trace, the engine's initialization is preceded
by both the filename reception and the init-trigger reception, and the
streaming run is preceded by both the ready-signal write and the
stream-trigger reception. -/
theorem C4_phase_ordering (cnn reviewDone : Bool) (inputs : List String) :
    precedes isRecvFileName isInitializeOnline (analyzerTrace cnn reviewDone inputs)
  ∧ precedes isReadInitTrigger isInitializeOnline (analyzerTrace cnn reviewDone inputs)
  ∧ precedes isSentReady isFitOnline (analyzerTrace cnn reviewDone inputs)
  ∧ precedes isReadStreamTrigger isFitOnline (analyzerTrace cnn reviewDone inputs) := by
  rcases inputs with _ | ⟨f, _ | ⟨l, rest⟩⟩
  · exact ⟨precedes_nil _ _, precedes_nil _ _, precedes_nil _ _, precedes_nil _ _⟩
  · refine ⟨?_, ?_, ?_, ?_⟩ <;>
      (simp only [analyzerTrace, initSegment]
       repeat (first
         | exact precedes_nil _ _
         | exact precedes_cons_hit _ _ _ _ rfl rfl
         | refine precedes_cons_not _ _ _ _ rfl ?_))
  · by_cases hl : sliceDropLast l = expectedMessage_init
    · rcases rest with _ | ⟨u, rest2⟩
      · cases cnn <;> cases reviewDone <;>
          (refine ⟨?_, ?_, ?_, ?_⟩ <;>
            (simp only [analyzerTrace, initSegment, triggerSegment, afterInit,
               streamSegment, hl, if_true, if_false, ite_true, ite_false,
               List.cons_append, List.nil_append, List.append_nil]
             repeat (first
               | exact precedes_nil _ _
               | exact precedes_cons_hit _ _ _ _ rfl rfl
               | refine precedes_cons_not _ _ _ _ rfl ?_)))
      · by_cases hu : sliceDropLast u = expectedMessage_analyse <;>
          cases cnn <;> cases reviewDone <;>
          (refine ⟨?_, ?_, ?_, ?_⟩ <;>
            (simp only [analyzerTrace, initSegment, triggerSegment, afterInit,
               streamSegment, hl, hu, if_true, if_false, ite_true, ite_false,
               List.cons_append, List.nil_append, List.append_nil]
             repeat (first
               | exact precedes_nil _ _
               | exact precedes_cons_hit _ _ _ _ rfl rfl
               | refine precedes_cons_not _ _ _ _ rfl ?_)))
    · refine ⟨?_, ?_, ?_, ?_⟩ <;>
        (simp only [analyzerTrace, initSegment, triggerSegment, hl, if_false, ite_false,
           List.cons_append, List.nil_append]
         repeat (first
           | exact precedes_nil _ _
           | exact precedes_cons_hit _ _ _ _ rfl rfl
           | refine precedes_cons_not _ _ _ _ rfl ?_))

/-- Claim C7: every trace carries at most one pipe write, any write is
exactly the ready token `startStreamAcquisition` with a trailing
newline, the write happens only after initialization and after the
review-pause confirmation, the write handle is opened line-buffered,
and a completed session carries exactly one such write. -/
theorem C7_ready_signal (cnn reviewDone : Bool) (inputs : List String) :
    ((analyzerTrace cnn reviewDone inputs).filter isSentMessage).length ≤ 1
  ∧ (∀ raw, Event.sentMessage raw ∈ analyzerTrace cnn reviewDone inputs →
      raw = triggerStream)
  ∧ precedes isInitializeOnline isSentMessage (analyzerTrace cnn reviewDone inputs)
  ∧ precedes isReviewConfirmed isSentMessage (analyzerTrace cnn reviewDone inputs)
  ∧ sendPipeOpenBuffering = 1
  ∧ triggerStream = "startStreamAcquisition\n"
  ∧ (∀ f rest,
      ((analyzerTrace cnn true (f :: "startInitProcess\n" :: rest)).filter
          isSentMessage).length = 1) := by
  have hinit : sliceDropLast "startInitProcess\n" = expectedMessage_init := by decide
  refine ⟨?_, ?_, ?_, ?_, rfl, rfl, ?_⟩
  · rcases inputs with _ | ⟨f, _ | ⟨l, rest⟩⟩
    · simp [analyzerTrace]
    · simp [analyzerTrace, initSegment, isSentMessage]
    · by_cases hl : sliceDropLast l = expectedMessage_init
      · rcases rest with _ | ⟨u, rest2⟩
        · cases cnn <;> cases reviewDone <;>
            simp [analyzerTrace, initSegment, triggerSegment, afterInit, streamSegment,
              hl, isSentMessage]
        · by_cases hu : sliceDropLast u = expectedMessage_analyse <;>
            cases cnn <;> cases reviewDone <;>
            simp [analyzerTrace, initSegment, triggerSegment, afterInit, streamSegment,
              hl, hu, isSentMessage]
      · simp [analyzerTrace, initSegment, triggerSegment, hl, isSentMessage]
  · intro raw hraw
    rcases inputs with _ | ⟨f, _ | ⟨l, rest⟩⟩
    · simp [analyzerTrace] at hraw
    · simp [analyzerTrace, initSegment] at hraw
    · by_cases hl : sliceDropLast l = expectedMessage_init
      · rcases rest with _ | ⟨u, rest2⟩
        · cases cnn <;> cases reviewDone <;>
            (simp [analyzerTrace, initSegment, triggerSegment, afterInit, streamSegment,
               hl] at hraw) <;> exact hraw
        · by_cases hu : sliceDropLast u = expectedMessage_analyse <;>
            cases cnn <;> cases reviewDone <;>
            (simp [analyzerTrace, initSegment, triggerSegment, afterInit, streamSegment,
               hl, hu] at hraw) <;> exact hraw
      · simp [analyzerTrace, initSegment, triggerSegment, hl] at hraw
  · rcases inputs with _ | ⟨f, _ | ⟨l, rest⟩⟩
    · exact precedes_nil _ _
    · simp only [analyzerTrace, initSegment]
      repeat (first
        | exact precedes_nil _ _
        | exact precedes_cons_hit _ _ _ _ rfl rfl
        | refine precedes_cons_not _ _ _ _ rfl ?_)
    · by_cases hl : sliceDropLast l = expectedMessage_init
      · rcases rest with _ | ⟨u, rest2⟩
        · cases cnn <;> cases reviewDone <;>
            (simp only [analyzerTrace, initSegment, triggerSegment, afterInit,
               streamSegment, hl, if_true, if_false, ite_true, ite_false,
               List.cons_append, List.nil_append, List.append_nil]
             repeat (first
               | exact precedes_nil _ _
               | exact precedes_cons_hit _ _ _ _ rfl rfl
               | refine precedes_cons_not _ _ _ _ rfl ?_))
        · by_cases hu : sliceDropLast u = expectedMessage_analyse <;>
            cases cnn <;> cases reviewDone <;>
            (simp only [analyzerTrace, initSegment, triggerSegment, afterInit,
               streamSegment, hl, hu, if_true, if_false, ite_true, ite_false,
               List.cons_append, List.nil_append, List.append_nil]
             repeat (first
               | exact precedes_nil _ _
               | exact precedes_cons_hit _ _ _ _ rfl rfl
               | refine precedes_cons_not _ _ _ _ rfl ?_))
      · simp only [analyzerTrace, initSegment, triggerSegment, hl, if_false, ite_false,
          List.cons_append, List.nil_append]
        repeat (first
          | exact precedes_nil _ _
          | exact precedes_cons_hit _ _ _ _ rfl rfl
          | refine precedes_cons_not _ _ _ _ rfl ?_)
  · rcases inputs with _ | ⟨f, _ | ⟨l, rest⟩⟩
    · exact precedes_nil _ _
    · simp only [analyzerTrace, initSegment]
      repeat (first
        | exact precedes_nil _ _
        | exact precedes_cons_hit _ _ _ _ rfl rfl
        | refine precedes_cons_not _ _ _ _ rfl ?_)
    · by_cases hl : sliceDropLast l = expectedMessage_init
      · rcases rest with _ | ⟨u, rest2⟩
        · cases cnn <;> cases reviewDone <;>
            (simp only [analyzerTrace, initSegment, triggerSegment, afterInit,
               streamSegment, hl, if_true, if_false, ite_true, ite_false,
               List.cons_append, List.nil_append, List.append_nil]
             repeat (first
               | exact precedes_nil _ _
               | exact precedes_cons_hit _ _ _ _ rfl rfl
               | refine precedes_cons_not _ _ _ _ rfl ?_))
        · by_cases hu : sliceDropLast u = expectedMessage_analyse <;>
            cases cnn <;> cases reviewDone <;>
            (simp only [analyzerTrace, initSegment, triggerSegment, afterInit,
               streamSegment, hl, hu, if_true, if_false, ite_true, ite_false,
               List.cons_append, List.nil_append, List.append_nil]
             repeat (first
               | exact precedes_nil _ _
               | exact precedes_cons_hit _ _ _ _ rfl rfl
               | refine precedes_cons_not _ _ _ _ rfl ?_))
      · simp only [analyzerTrace, initSegment, triggerSegment, hl, if_false, ite_false,
          List.cons_append, List.nil_append]
        repeat (first
          | exact precedes_nil _ _
          | exact precedes_cons_hit _ _ _ _ rfl rfl
          | refine precedes_cons_not _ _ _ _ rfl ?_)
  · intro f rest
    rcases rest with _ | ⟨u, rest2⟩
    · cases cnn <;>
        simp [analyzerTrace, initSegment, triggerSegment, afterInit, streamSegment,
          hinit, isSentMessage]
    · by_cases hu : sliceDropLast u = expectedMessage_analyse <;>
        cases cnn <;>
        simp [analyzerTrace, initSegment, triggerSegment, afterInit, streamSegment,
          hinit, hu, isSentMessage]

/-- Witness for claim C7 on a completed session. -/
theorem C7_ready_signal_w :
    Event.sentMessage "startStreamAcquisition\n" ∈
        analyzerTrace true true ["run42\n", "startInitProcess\n"]
  ∧ "startStreamAcquisition\n" = triggerStream :=
  ⟨by decide,
    (C7_ready_signal true true ["run42\n", "startInitProcess\n"]).2.1
      "startStreamAcquisition\n" (by decide)⟩

/-- Claim C9: after the engine is constructed, the configuration is
mutated at most once; the only mutation event sets the `quality` group
entry `min_cnn_thr`, occurs only when the CNN classifier flag is
enabled, and only after initialization has completed. -/
theorem C9_config_mutation (cnn reviewDone : Bool) (inputs : List String) :
    ((analyzerTrace cnn reviewDone inputs).filter isCnnOverride).length ≤ 1
  ∧ (∀ g k, Event.cnnOverride g k ∈ analyzerTrace cnn reviewDone inputs →
      g = "quality" ∧ k = "min_cnn_thr" ∧ cnn = true)
  ∧ precedes isInitializeOnline isCnnOverride (analyzerTrace cnn reviewDone inputs) := by
  refine ⟨?_, ?_, ?_⟩
  · rcases inputs with _ | ⟨f, _ | ⟨l, rest⟩⟩
    · simp [analyzerTrace]
    · simp [analyzerTrace, initSegment, isCnnOverride]
    · by_cases hl : sliceDropLast l = expectedMessage_init
      · rcases rest with _ | ⟨u, rest2⟩
        · cases cnn <;> cases reviewDone <;>
            simp [analyzerTrace, initSegment, triggerSegment, afterInit, streamSegment,
              hl, isCnnOverride]
        · by_cases hu : sliceDropLast u = expectedMessage_analyse <;>
            cases cnn <;> cases reviewDone <;>
            simp [analyzerTrace, initSegment, triggerSegment, afterInit, streamSegment,
              hl, hu, isCnnOverride]
      · simp [analyzerTrace, initSegment, triggerSegment, hl, isCnnOverride]
  · intro g k hmem
    rcases inputs with _ | ⟨f, _ | ⟨l, rest⟩⟩
    · simp [analyzerTrace] at hmem
    · simp [analyzerTrace, initSegment] at hmem
    · by_cases hl : sliceDropLast l = expectedMessage_init
      · rcases rest with _ | ⟨u, rest2⟩
        · cases cnn <;> cases reviewDone <;>
            (simp [analyzerTrace, initSegment, triggerSegment, afterInit, streamSegment,
               hl] at hmem) <;> exact ⟨hmem.1, hmem.2, rfl⟩
        · by_cases hu : sliceDropLast u = expectedMessage_analyse <;>
            cases cnn <;> cases reviewDone <;>
            (simp [analyzerTrace, initSegment, triggerSegment, afterInit, streamSegment,
               hl, hu] at hmem) <;> exact ⟨hmem.1, hmem.2, rfl⟩
      · simp [analyzerTrace, initSegment, triggerSegment, hl] at hmem
  · rcases inputs with _ | ⟨f, _ | ⟨l, rest⟩⟩
    · exact precedes_nil _ _
    · simp only [analyzerTrace, initSegment]
      repeat (first
        | exact precedes_nil _ _
        | exact precedes_cons_hit _ _ _ _ rfl rfl
        | refine precedes_cons_not _ _ _ _ rfl ?_)
    · by_cases hl : sliceDropLast l = expectedMessage_init
      · rcases rest with _ | ⟨u, rest2⟩
        · cases cnn <;> cases reviewDone <;>
            (simp only [analyzerTrace, initSegment, triggerSegment, afterInit,
               streamSegment, hl, if_true, if_false, ite_true, ite_false,
               List.cons_append, List.nil_append, List.append_nil]
             repeat (first
               | exact precedes_nil _ _
               | exact precedes_cons_hit _ _ _ _ rfl rfl
               | refine precedes_cons_not _ _ _ _ rfl ?_))
        · by_cases hu : sliceDropLast u = expectedMessage_analyse <;>
            cases cnn <;> cases reviewDone <;>
            (simp only [analyzerTrace, initSegment, triggerSegment, afterInit,
               streamSegment, hl, hu, if_true, if_false, ite_true, ite_false,
               List.cons_append, List.nil_append, List.append_nil]
             repeat (first
               | exact precedes_nil _ _
               | exact precedes_cons_hit _ _ _ _ rfl rfl
               | refine precedes_cons_not _ _ _ _ rfl ?_))
      · simp only [analyzerTrace, initSegment, triggerSegment, hl, if_false, ite_false,
          List.cons_append, List.nil_append]
        repeat (first
          | exact precedes_nil _ _
          | exact precedes_cons_hit _ _ _ _ rfl rfl
          | refine precedes_cons_not _ _ _ _ rfl ?_)

/-- Witness for claim C9 on a completed session with the classifier
flag enabled. -/
theorem C9_config_mutation_w :
    Event.cnnOverride "quality" "min_cnn_thr" ∈
        analyzerTrace true true ["run42\n", "startInitProcess\n"]
  ∧ ("quality" = "quality" ∧ "min_cnn_thr" = "min_cnn_thr" ∧ true = true) :=
  ⟨by decide,
    (C9_config_mutation true true ["run42\n", "startInitProcess\n"]).2.1
      "quality" "min_cnn_thr" (by decide)⟩
